import Mathlib

/-!
Shallow embedding of the OpenAQ dashboard's API-client layer
(`src/api/client.py`, `src/utils/config.py`, and the AQI classifiers in
`src/plots/charts.py` / `src/plots/maps.py`).

Modelling conventions:
* Python `time.time()` values and sleep durations are rationals (`ℚ`);
  a `time.sleep(w)` is modelled as advancing the clock by exactly `w`.
* JSON values are the inductive `Json`; a response envelope (a JSON
  object) is an association list `List (String × Json)` looked up with
  `List.lookup`, mirroring Python `dict.get`.
* Query-parameter dictionaries are association lists `List (String × PVal)`
  in insertion order, `PVal` distinguishing int and string values as the
  Python dicts do.
* Optional Python arguments defaulting to `None` are `Option _`; Python
  truthiness of a string is non-emptiness, of an int is being non-zero,
  of a list is being non-empty (`None` and `[]` behave identically in
  the source, both are modelled by `[]` where a list is taken).
* Network behaviour is an oracle value `NetResult` per physical GET:
  either the response (status, optional parsed `x-ratelimit-reset`
  header, body) or a raised `requests.exceptions.RequestException`.
-/

/-- A JSON value, as handled (untyped) by the Python client. -/
inductive Json where
  | null : Json
  | bool (b : Bool) : Json
  | num (q : ℚ) : Json
  | str (s : String) : Json
  | arr (elems : List Json) : Json
  | obj (fields : List (String × Json)) : Json

/-- A JSON object envelope: the Python dict returned by `response.json()`
(and `{}` on the error path). -/
abbrev Envelope := List (String × Json)

/-- A query-parameter value: the Python dicts mix ints (`limit`) and
strings. -/
inductive PVal where
  | int (n : ℤ) : PVal
  | str (s : String) : PVal
deriving DecidableEq, Repr

/-- A query-parameter dict in insertion order. -/
abbrev Params := List (String × PVal)

namespace Config

/-- The constant `Config.REQUESTS_PER_MINUTE` from `src/utils/config.py`. -/
def REQUESTS_PER_MINUTE : ℕ := 60

/-- Embeds `Config.OPENAQ_API_KEY = os.getenv("OPENAQ_API_KEY", "")`:
the environment is a partial map from variable names to strings. -/
def OPENAQ_API_KEY (env : String → Option String) : String :=
  (env "OPENAQ_API_KEY").getD ""

/-- Embeds `Config.validate_api_key` from `src/utils/config.py`: raises
`ValueError` (modelled as `Except.error` carrying the message) when the
key is falsy (empty), returns `True` otherwise. -/
def validate_api_key (key : String) : Except String Bool :=
  if key = "" then
    .error "OpenAQ API key not configured. Please set OPENAQ_API_KEY environment variable."
  else
    .ok true

end Config

/-- The client's rate-window state: `minute_start` and
`requests_this_minute` set in `OpenAQClient.__init__`. -/
structure RateWindow where
  minuteStart : ℚ
  requestsThisMinute : ℕ
deriving DecidableEq, Repr

/-- Embeds `OpenAQClient._check_rate_limit`, as a function of the current state
and the value of `time.time()` at entry. Returns the new window state
and the sleep performed, if any (`none` means no `time.sleep` call).
After a sleep of `w` seconds the code re-reads `time.time()`, modelled
as `now + w`. -/
def check_rate_limit (s : RateWindow) (now : ℚ) : RateWindow × Option ℚ :=
  let s1 := if now - s.minuteStart ≥ 60 then RateWindow.mk now 0 else s
  if s1.requestsThisMinute ≥ Config.REQUESTS_PER_MINUTE then
    let wait := 60 - (now - s1.minuteStart)
    if wait > 0 then (RateWindow.mk (now + wait) 0, some wait)
    else (s1, none)
  else (s1, none)

/-- Outcome of one physical `session.get` call: a response with status
code, the parsed `x-ratelimit-reset` header when present, and the JSON
body; or a raised `requests.exceptions.RequestException` with message. -/
inductive NetResult where
  | exn (msg : String) : NetResult
  | ok (status : ℕ) (ratelimitReset : Option ℕ) (body : Envelope) : NetResult

/-- Observable outcome of one `OpenAQClient._make_request` call. -/
structure MRResult where
  /-- The returned envelope (`{}`, i.e. `[]`, on the error path). -/
  body : Envelope
  /-- The rate-window state after the call. -/
  window : RateWindow
  /-- Sleep performed by `_check_rate_limit`, if any. -/
  rateLimitSleep : Option ℚ
  /-- Sleeps performed by the 429-retry branch, in order. -/
  retrySleeps : List ℚ
  /-- Number of `session.get` invocations. -/
  gets : ℕ
  /-- Whether `st.error` was called (a user-visible error message). -/
  errored : Bool

/-- The predicate under which `requests.Response.raise_for_status` raises:
4xx and 5xx status codes. -/
def raiseForStatus (status : ℕ) : Bool :=
  decide (400 ≤ status) && decide (status < 600)

/-- Embeds `OpenAQClient._make_request`, as a function of the rate-window
state, the clock at entry, and the oracle outcomes of the first and
(potential) second `session.get`. The counter is incremented after the
first get only; a 429 first status sleeps for the parsed
`x-ratelimit-reset` header (60 when absent) and re-issues the get once;
`raise_for_status` on the final response, and any
`requests.exceptions.RequestException`, are caught, producing
`st.error(...)` and the empty envelope `{}`. -/
def make_request (s : RateWindow) (now : ℚ) (net1 net2 : NetResult) : MRResult :=
  let chk := check_rate_limit s now
  let s1 := chk.1
  match net1 with
  | .exn _ => ⟨[], s1, chk.2, [], 1, true⟩
  | .ok status headerReset body =>
    let s2 : RateWindow := ⟨s1.minuteStart, s1.requestsThisMinute + 1⟩
    if status = 429 then
      let reset : ℚ := (headerReset.getD 60 : ℕ)
      match net2 with
      | .exn _ => ⟨[], s2, chk.2, [reset], 2, true⟩
      | .ok status2 _ body2 =>
        if raiseForStatus status2 then ⟨[], s2, chk.2, [reset], 2, true⟩
        else ⟨body2, s2, chk.2, [reset], 2, false⟩
    else if raiseForStatus status then ⟨[], s2, chk.2, [], 1, true⟩
    else ⟨body, s2, chk.2, [], 1, false⟩

/-- The unwrap step shared by every endpoint method:
`data.get('results', [])`. -/
def unwrapResults (data : Envelope) : Json :=
  (data.lookup "results").getD (Json.arr [])

/-- Conditional insertion `if arg: params[key] = arg` for a string-valued
optional argument (`None` and `""` are both falsy). -/
def optStrEntry (key : String) (arg : Option String) : Params :=
  match arg with
  | some s => if s = "" then [] else [(key, PVal.str s)]
  | none => []

/-- The query parameters built by `OpenAQClient.get_locations`.
The bbox components stand for the decimal renderings `str(bbox[i])` of
the four floats, so the f-string
`f"{bbox[0]},{bbox[1]},{bbox[2]},{bbox[3]}"` is their comma-joined
concatenation. -/
def get_locations_params (country city : Option String)
    (bbox : Option (String × String × String × String)) : Params :=
  [("limit", PVal.int 1000)]
    ++ optStrEntry "countries" country
    ++ optStrEntry "cities" city
    ++ (match bbox with
        | some (a, b, c, d) =>
          [("bbox", PVal.str (a ++ "," ++ b ++ "," ++ c ++ "," ++ d))]
        | none => [])

/-- A tz-naive `datetime.datetime` with zero microseconds (the only kind
built by the dashboard's date pickers). -/
structure PyDatetime where
  year : ℕ
  month : ℕ
  day : ℕ
  hour : ℕ
  minute : ℕ
  second : ℕ
deriving DecidableEq, Repr

/-- The character for a single decimal digit. -/
def digitChar (n : ℕ) : Char := Char.ofNat (48 + n)

/-- The character list of CPython `datetime.isoformat()` for a tz-naive
value with zero microseconds: `"%04d-%02d-%02dT%02d:%02d:%02d"`
(exact for fields in `datetime`'s documented ranges). -/
def isoformatChars (d : PyDatetime) : List Char :=
  [digitChar (d.year / 1000 % 10), digitChar (d.year / 100 % 10),
   digitChar (d.year / 10 % 10), digitChar (d.year % 10), '-',
   digitChar (d.month / 10 % 10), digitChar (d.month % 10), '-',
   digitChar (d.day / 10 % 10), digitChar (d.day % 10), 'T',
   digitChar (d.hour / 10 % 10), digitChar (d.hour % 10), ':',
   digitChar (d.minute / 10 % 10), digitChar (d.minute % 10), ':',
   digitChar (d.second / 10 % 10), digitChar (d.second % 10)]

/-- Embeds `datetime.isoformat()` under the conventions of `isoformatChars`. -/
def PyDatetime.isoformat (d : PyDatetime) : String :=
  String.mk (isoformatChars d)

/-- Recogniser for the ISO-8601 basic timestamp text shape
`YYYY-MM-DDTHH:MM:SS`. -/
def isISO8601Timestamp (s : String) : Bool :=
  match s.data with
  | [y1, y2, y3, y4, c1, m1, m2, c2, d1, d2, t1, h1, h2, c3, n1, n2, c4, e1, e2] =>
    y1.isDigit && y2.isDigit && y3.isDigit && y4.isDigit && (c1 == '-') &&
    m1.isDigit && m2.isDigit && (c2 == '-') &&
    d1.isDigit && d2.isDigit && (t1 == 'T') &&
    h1.isDigit && h2.isDigit && (c3 == ':') &&
    n1.isDigit && n2.isDigit && (c4 == ':') &&
    e1.isDigit && e2.isDigit
  | _ => false

/-- The query parameters built by `OpenAQClient.get_measurements`
(`location_id` is falsy when `None` or `0`). -/
def get_measurements_params (location_id : Option ℤ) (parameter : Option String)
    (date_from date_to : Option PyDatetime) (limit : ℤ) : Params :=
  [("limit", PVal.int limit), ("sort", PVal.str "datetime")]
    ++ (match location_id with
        | some n => if n = 0 then [] else [("locations", PVal.int n)]
        | none => [])
    ++ optStrEntry "parameters" parameter
    ++ (match date_from with
        | some d => [("date_from", PVal.str d.isoformat)]
        | none => [])
    ++ (match date_to with
        | some d => [("date_to", PVal.str d.isoformat)]
        | none => [])

/-- The query parameters built by `OpenAQClient.get_latest_measurements`
(each list argument is falsy when `None` or empty, both modelled `[]`). -/
def get_latest_measurements_params (location_ids : List ℤ)
    (countries parameters : List String) : Params :=
  [("limit", PVal.int 1000)]
    ++ (if location_ids = [] then []
        else [("locations",
               PVal.str (String.intercalate "," (location_ids.map toString)))])
    ++ (if countries = [] then []
        else [("countries", PVal.str (String.intercalate "," countries))])
    ++ (if parameters = [] then []
        else [("parameters", PVal.str (String.intercalate "," parameters))])

/-- The requests `OpenAQClient.get_latest_measurements` issues, as
(endpoint, params) pairs in order: the body calls `_make_request` once,
on the `latest` endpoint, with all location ids comma-joined into a
single `locations` parameter. -/
def get_latest_measurements_requests (location_ids : List ℤ)
    (countries parameters : List String) : List (String × Params) :=
  [("latest", get_latest_measurements_params location_ids countries parameters)]

/-- Modelled from the spec: the request sequence `get_latest_measurements`
is specified to issue (the repository's own unit test
`tests/test_client.py::test_get_latest_measurements` asserts the same) —
one request per supplied location id against `locations/{id}/latest`,
each carrying the shared `countries` and `parameters` filters. -/
def spec_latest_measurements_requests (location_ids : List ℤ)
    (countries parameters : List String) : List (String × Params) :=
  location_ids.map fun i =>
    ("locations/" ++ toString i ++ "/latest",
     [("limit", PVal.int 1000)]
       ++ (if countries = [] then []
           else [("countries", PVal.str (String.intercalate "," countries))])
       ++ (if parameters = [] then []
           else [("parameters", PVal.str (String.intercalate "," parameters))]))

/-- Result of `get_openaq_client`: either the `ValueError` message shown
via `st.error` (followed by `st.stop`), or the freshly constructed
client's rate-window state; plus the number of network requests
performed during construction (`OpenAQClient.__init__` performs none). -/
structure InitTrace where
  result : Except String RateWindow
  networkRequests : ℕ

/-- Embeds `get_openaq_client` from `src/api/client.py`: validates the API key
first; only on success constructs `OpenAQClient`, whose `__init__` sets
`requests_this_minute = 0` and `minute_start = time.time()` and issues
no HTTP request. -/
def get_openaq_client (env : String → Option String) (now : ℚ) : InitTrace :=
  match Config.validate_api_key (Config.OPENAQ_API_KEY env) with
  | .error e => ⟨.error e, 0⟩
  | .ok _ => ⟨.ok (RateWindow.mk now 0), 0⟩

/-- One AQI threshold band `(min_val, max_val, category, color)` from
`AQI_THRESHOLDS` in `src/utils/config.py`; `hi = none` stands for
`float("inf")`. -/
structure AQIBand where
  lo : ℚ
  hi : Option ℚ
  category : String
  color : String

/-- The table `AQI_THRESHOLDS["pm25"]` from `src/utils/config.py`. -/
def aqiThresholdsPm25 : List AQIBand :=
  [⟨0, some 12, "Good", "#00E400"⟩,
   ⟨12.1, some 35.4, "Moderate", "#FFFF00"⟩,
   ⟨35.5, some 55.4, "Unhealthy for Sensitive Groups", "#FF7E00"⟩,
   ⟨55.5, some 150.4, "Unhealthy", "#FF0000"⟩,
   ⟨150.5, some 250.4, "Very Unhealthy", "#8F3F97"⟩,
   ⟨250.5, none, "Hazardous", "#7E0023"⟩]

/-- The per-band test `min_val <= value <= max_val` shared by both
classifiers. -/
def bandMatches (v : ℚ) (b : AQIBand) : Bool :=
  decide (b.lo ≤ v) &&
    (match b.hi with
     | some h => decide (v ≤ h)
     | none => true)

/-- The (category, color) pair computed by
`AirQualityCharts.create_aqi_gauge` for parameter `pm25`: the first
matching band wins; with no match the initial defaults
`("Good", "#00E400")` survive. -/
def create_aqi_gauge_category (v : ℚ) : String × String :=
  match aqiThresholdsPm25.find? (bandMatches v) with
  | some b => (b.category, b.color)
  | none => ("Good", "#00E400")

/-- The hex-to-CSS `color_map` inside `AirQualityMaps._get_aqi_color`. -/
def foliumColorMap : List (String × String) :=
  [("#00E400", "green"), ("#FFFF00", "yellow"), ("#FF7E00", "orange"),
   ("#FF0000", "red"), ("#8F3F97", "purple"), ("#7E0023", "darkred")]

/-- Embeds `AirQualityMaps._get_aqi_color` for parameter `pm25`: the first
matching band's hex color mapped through `color_map` (default `blue`);
`blue` also when no band matches. -/
def get_aqi_color (v : ℚ) : String :=
  match aqiThresholdsPm25.find? (bandMatches v) with
  | some b => (foliumColorMap.lookup b.color).getD "blue"
  | none => "blue"

/-! ## Theorems -/

/-- C4: for every envelope, the unwrap step returns the value of its
`results` field when that key is present and an empty sequence when it
is absent; it is total (never raises), including on the empty envelope
`{}` produced by a failed request. -/
theorem C4_unwrap_results (data : Envelope) :
    (∀ v, data.lookup "results" = some v → unwrapResults data = v) ∧
    (data.lookup "results" = none → unwrapResults data = Json.arr []) ∧
    unwrapResults [] = Json.arr [] := by
  refine ⟨fun v hv => ?_, fun h => ?_, rfl⟩ <;> simp [unwrapResults, *]

/-- Witness for C4 at two concrete envelopes: one carrying `results`,
one lacking it. -/
theorem C4_unwrap_results_witness :
    unwrapResults [("results", Json.arr [Json.num 3])] = Json.arr [Json.num 3] ∧
    unwrapResults [("meta", Json.num 1)] = Json.arr [] := by
  have h1 := C4_unwrap_results [("results", Json.arr [Json.num 3])]
  have h2 := C4_unwrap_results [("meta", Json.num 1)]
  exact ⟨h1.1 _ rfl, h2.2.1 rfl⟩

/-- C6: when `OPENAQ_API_KEY` is absent or empty, client construction
signals the configuration `ValueError` with its descriptive message and
performs no network request; when the key is non-empty, validation
succeeds and the client is constructed with a fresh rate window. -/
theorem C6_api_key_validation (env : String → Option String) (now : ℚ) :
    ((env "OPENAQ_API_KEY" = none ∨ env "OPENAQ_API_KEY" = some "") →
      (get_openaq_client env now).result =
        .error "OpenAQ API key not configured. Please set OPENAQ_API_KEY environment variable." ∧
      (get_openaq_client env now).networkRequests = 0) ∧
    (Config.OPENAQ_API_KEY env ≠ "" →
      (get_openaq_client env now).result = .ok (RateWindow.mk now 0) ∧
      (get_openaq_client env now).networkRequests = 0) := by
  constructor
  · rintro (h | h) <;>
      simp [get_openaq_client, Config.OPENAQ_API_KEY, Config.validate_api_key, h]
  · intro h
    unfold get_openaq_client Config.validate_api_key
    rw [if_neg h]
    exact ⟨rfl, rfl⟩

/-- Witness for C6: an absent key errors, an empty key errors, a
non-empty key constructs the client. -/
theorem C6_api_key_validation_witness :
    (get_openaq_client (fun _ => none) 0).result =
      .error "OpenAQ API key not configured. Please set OPENAQ_API_KEY environment variable." ∧
    (get_openaq_client (fun _ => some "") 0).result =
      .error "OpenAQ API key not configured. Please set OPENAQ_API_KEY environment variable." ∧
    (get_openaq_client (fun _ => some "k") 7).result = .ok (RateWindow.mk 7 0) := by
  refine ⟨((C6_api_key_validation (fun _ => none) 0).1 (Or.inl rfl)).1,
          ((C6_api_key_validation (fun _ => some "") 0).1 (Or.inr rfl)).1,
          ((C6_api_key_validation (fun _ => some "k") 7).2 (by decide)).1⟩

/-- C7: `get_locations` always sends the fixed `limit=1000` entry, and a
supplied bounding box is serialized as the single comma-joined string of
its four components in order. -/
theorem C7_get_locations_params (country city : Option String)
    (bbox : Option (String × String × String × String)) :
    ("limit", PVal.int 1000) ∈ get_locations_params country city bbox ∧
    (∀ a b c d, bbox = some (a, b, c, d) →
      ("bbox", PVal.str (a ++ "," ++ b ++ "," ++ c ++ "," ++ d)) ∈
        get_locations_params country city bbox) := by
  constructor
  · simp [get_locations_params]
  · rintro a b c d rfl
    simp [get_locations_params]

/-- Witness for C7 at a concrete argument set with a bounding box. -/
theorem C7_get_locations_params_witness :
    ("limit", PVal.int 1000) ∈
      get_locations_params (some "US") none (some ("1.0", "2.0", "3.0", "4.0")) ∧
    ("bbox", PVal.str "1.0,2.0,3.0,4.0") ∈
      get_locations_params (some "US") none (some ("1.0", "2.0", "3.0", "4.0")) := by
  have h := C7_get_locations_params (some "US") none (some ("1.0", "2.0", "3.0", "4.0"))
  exact ⟨h.1, h.2 "1.0" "2.0" "3.0" "4.0" rfl⟩

/-- C1: at `location_ids=[1,2]`, `countries=["US"]`,
`parameters=["pm25"]`, `get_latest_measurements` issues a single bulk
request to the `latest` endpoint with the ids comma-joined into one
`locations` parameter — not one request per location id against
`locations/{id}/latest` as specified (and as the repository's own unit
test `test_get_latest_measurements` asserts). -/
theorem C1_latest_single_bulk_request :
    get_latest_measurements_requests [1, 2] ["US"] ["pm25"] =
      [("latest",
        [("limit", PVal.int 1000), ("locations", PVal.str "1,2"),
         ("countries", PVal.str "US"), ("parameters", PVal.str "pm25")])] ∧
    (get_latest_measurements_requests [1, 2] ["US"] ["pm25"]).length = 1 ∧
    (spec_latest_measurements_requests [1, 2] ["US"] ["pm25"]).length = 2 ∧
    get_latest_measurements_requests [1, 2] ["US"] ["pm25"] ≠
      spec_latest_measurements_requests [1, 2] ["US"] ["pm25"] := by
  refine ⟨rfl, rfl, rfl, by decide⟩

/-- C3: for every rate-window state within budget and every current
time, `_check_rate_limit` resets counter and window start when at least
60 seconds have elapsed; otherwise, when the per-minute budget is
exhausted, it sleeps exactly the remaining window time
(60 minus elapsed) and then resets counter and window start (to the
post-sleep clock); otherwise it leaves the state unchanged and does not
sleep. It is a total function: it never fails, only delays. -/
theorem C3_check_rate_limit (s : RateWindow) (now : ℚ)
    (hc : s.requestsThisMinute ≤ Config.REQUESTS_PER_MINUTE) :
    (60 ≤ now - s.minuteStart →
      check_rate_limit s now = (RateWindow.mk now 0, none)) ∧
    (now - s.minuteStart < 60 →
      Config.REQUESTS_PER_MINUTE ≤ s.requestsThisMinute →
      check_rate_limit s now =
        (RateWindow.mk (now + (60 - (now - s.minuteStart))) 0,
         some (60 - (now - s.minuteStart)))) ∧
    (now - s.minuteStart < 60 →
      s.requestsThisMinute < Config.REQUESTS_PER_MINUTE →
      check_rate_limit s now = (s, none)) := by
  refine ⟨fun h => ?_, fun h hfull => ?_, fun h hlt => ?_⟩
  · simp only [check_rate_limit, ge_iff_le]
    rw [if_pos h]
    simp [Config.REQUESTS_PER_MINUTE]
  · simp only [check_rate_limit, ge_iff_le]
    rw [if_neg (not_le.mpr h), if_pos hfull,
        if_pos (by linarith : (0 : ℚ) < 60 - (now - s.minuteStart))]
  · simp only [check_rate_limit, ge_iff_le]
    rw [if_neg (not_le.mpr h), if_neg (not_le.mpr hlt)]

/-- Witness for C3: a full window mid-minute sleeps the remaining 50
seconds; a stale window resets; an in-budget window is untouched. -/
theorem C3_check_rate_limit_witness :
    check_rate_limit (RateWindow.mk 0 60) 10 = (RateWindow.mk 60 0, some 50) ∧
    check_rate_limit (RateWindow.mk 0 60) 61 = (RateWindow.mk 61 0, none) ∧
    check_rate_limit (RateWindow.mk 0 5) 10 = (RateWindow.mk 0 5, none) := by
  have h1 := C3_check_rate_limit (RateWindow.mk 0 60) 10 (by norm_num [Config.REQUESTS_PER_MINUTE])
  have h2 := C3_check_rate_limit (RateWindow.mk 0 60) 61 (by norm_num [Config.REQUESTS_PER_MINUTE])
  have h3 := C3_check_rate_limit (RateWindow.mk 0 5) 10 (by norm_num [Config.REQUESTS_PER_MINUTE])
  refine ⟨?_, ?_, ?_⟩
  · have h := h1.2.1 (by norm_num) (by norm_num [Config.REQUESTS_PER_MINUTE])
    norm_num at h
    exact h
  · exact h2.1 (by norm_num)
  · exact h3.2.2 (by norm_num) (by norm_num [Config.REQUESTS_PER_MINUTE])

/-- C9: from any reachable state (counter at most the 60-per-minute
budget), `_check_rate_limit` leaves the counter strictly below the
budget, so the HTTP request that follows is issued strictly under it;
and `_make_request` increments the counter at most once — even when the
429 branch sends a second physical request — so the reachability
invariant is preserved. -/
theorem C9_budget_invariant (s : RateWindow) (now : ℚ) (net1 net2 : NetResult)
    (hc : s.requestsThisMinute ≤ Config.REQUESTS_PER_MINUTE) :
    (check_rate_limit s now).1.requestsThisMinute < Config.REQUESTS_PER_MINUTE ∧
    (check_rate_limit s now).1.requestsThisMinute ≤
      (make_request s now net1 net2).window.requestsThisMinute ∧
    (make_request s now net1 net2).window.requestsThisMinute ≤
      (check_rate_limit s now).1.requestsThisMinute + 1 ∧
    (make_request s now net1 net2).window.requestsThisMinute ≤
      Config.REQUESTS_PER_MINUTE := by
  have hlt : (check_rate_limit s now).1.requestsThisMinute < Config.REQUESTS_PER_MINUTE := by
    unfold check_rate_limit
    by_cases h1 : now - s.minuteStart ≥ 60
    · rw [if_pos h1]
      simp [Config.REQUESTS_PER_MINUTE]
    · rw [if_neg h1]
      by_cases h2 : s.requestsThisMinute ≥ Config.REQUESTS_PER_MINUTE
      · rw [if_pos h2, if_pos (by push_neg at h1; linarith)]
        simp [Config.REQUESTS_PER_MINUTE]
      · rw [if_neg h2]
        exact lt_of_not_ge h2
  have hw : (make_request s now net1 net2).window.requestsThisMinute =
      (check_rate_limit s now).1.requestsThisMinute ∨
      (make_request s now net1 net2).window.requestsThisMinute =
      (check_rate_limit s now).1.requestsThisMinute + 1 := by
    cases net1 with
    | exn m => left; rfl
    | ok st hdr b =>
      right
      unfold make_request
      cases net2 <;> dsimp only <;> split <;> try rfl
      all_goals split <;> rfl
  rcases hw with hw | hw <;> rw [hw] <;> omega

/-- Witness for C9 at a full window (counter 60) mid-minute, with a
successful request following. -/
theorem C9_budget_invariant_witness :
    (check_rate_limit (RateWindow.mk 0 60) 10).1.requestsThisMinute <
      Config.REQUESTS_PER_MINUTE ∧
    (make_request (RateWindow.mk 0 60) 10 (.ok 200 none []) (.exn "x")).window.requestsThisMinute ≤
      Config.REQUESTS_PER_MINUTE := by
  have h := C9_budget_invariant (RateWindow.mk 0 60) 10 (.ok 200 none []) (.exn "x")
    (by norm_num [Config.REQUESTS_PER_MINUTE])
  exact ⟨h.1, h.2.2.2⟩

/-- C2: when the first response is HTTP 429, `_make_request` sleeps
exactly once, for the parsed `x-ratelimit-reset` header duration (60
seconds when the header is absent), then re-issues the request exactly
once (two gets total, whatever the second outcome); a second 429 is not
retried again — it degrades to the error path (empty envelope, user
visible error). -/
theorem C2_rate_limit_retry (s : RateWindow) (now : ℚ)
    (hdr : Option ℕ) (body : Envelope) (net2 : NetResult) :
    (make_request s now (.ok 429 hdr body) net2).retrySleeps =
      [((hdr.getD 60 : ℕ) : ℚ)] ∧
    (make_request s now (.ok 429 hdr body) net2).gets = 2 ∧
    (∀ hdr2 body2, net2 = .ok 429 hdr2 body2 →
      (make_request s now (.ok 429 hdr body) net2).body = [] ∧
      (make_request s now (.ok 429 hdr body) net2).errored = true ∧
      (make_request s now (.ok 429 hdr body) net2).gets = 2) := by
  have key : ∀ n2 : NetResult,
      (make_request s now (.ok 429 hdr body) n2).retrySleeps =
        [((hdr.getD 60 : ℕ) : ℚ)] ∧
      (make_request s now (.ok 429 hdr body) n2).gets = 2 := by
    intro n2
    cases n2 with
    | exn m => exact ⟨rfl, rfl⟩
    | ok st2 h2 b2 =>
      by_cases hrs : raiseForStatus st2 = true
      · simp [make_request, hrs]
      · simp [make_request, hrs]
  refine ⟨(key net2).1, (key net2).2, ?_⟩
  rintro hdr2 body2 rfl
  exact ⟨rfl, rfl, (key _).2⟩

/-- Witness for C2: header-directed sleep of 30s, second 429 not
retried, error path with empty envelope. -/
theorem C2_rate_limit_retry_witness :
    (make_request (RateWindow.mk 0 0) 0 (.ok 429 (some 30) []) (.ok 429 none [])).retrySleeps =
      [(30 : ℚ)] ∧
    (make_request (RateWindow.mk 0 0) 0 (.ok 429 (some 30) []) (.ok 429 none [])).gets = 2 ∧
    (make_request (RateWindow.mk 0 0) 0 (.ok 429 (some 30) []) (.ok 429 none [])).body = [] ∧
    (make_request (RateWindow.mk 0 0) 0 (.ok 429 (some 30) []) (.ok 429 none [])).errored = true := by
  have h := C2_rate_limit_retry (RateWindow.mk 0 0) 0 (some 30) [] (.ok 429 none [])
  have h3 := h.2.2 none [] rfl
  exact ⟨by simpa using h.1, h.2.1, h3.1, h3.2.1⟩

/-- C5: a raised request exception, or a final 4xx/5xx status other
than a recoverable first 429, is swallowed: `_make_request` emits a
user-visible error message and returns the empty envelope, no exception
propagating (the function is total); at the unwrap layer the failure is
indistinguishable from a legitimately empty result set. -/
theorem C5_error_swallowing (s : RateWindow) (now : ℚ) (msg : String)
    (st : ℕ) (hdr : Option ℕ) (body : Envelope) (net2 : NetResult) :
    ((make_request s now (.exn msg) net2).body = [] ∧
     (make_request s now (.exn msg) net2).errored = true) ∧
    (400 ≤ st → st < 600 → st ≠ 429 →
      (make_request s now (.ok st hdr body) net2).body = [] ∧
      (make_request s now (.ok st hdr body) net2).errored = true) ∧
    unwrapResults (make_request s now (.exn msg) net2).body =
      unwrapResults
        (make_request s now (.ok 200 none [("results", Json.arr [])]) net2).body := by
  refine ⟨⟨rfl, rfl⟩, fun h4 h6 h429 => ?_, ?_⟩
  · have hrs : raiseForStatus st = true := by
      simp [raiseForStatus]
      omega
    constructor <;> simp [make_request, if_neg h429, hrs]
  · rfl

/-- Witness for C5: a connection exception and a plain 500 both produce
the empty envelope and an error message, unwrapping like an empty
result set. -/
theorem C5_error_swallowing_witness :
    (make_request (RateWindow.mk 0 0) 0 (.exn "boom") (.exn "x")).body = [] ∧
    (make_request (RateWindow.mk 0 0) 0 (.ok 500 none []) (.exn "x")).body = [] ∧
    (make_request (RateWindow.mk 0 0) 0 (.ok 500 none []) (.exn "x")).errored = true ∧
    unwrapResults (make_request (RateWindow.mk 0 0) 0 (.exn "boom") (.exn "x")).body =
      Json.arr [] := by
  have h := C5_error_swallowing (RateWindow.mk 0 0) 0 "boom" 500 none [] (.exn "x")
  have h2 := h.2.1 (by norm_num) (by norm_num) (by norm_num)
  exact ⟨h.1.1, h2.1, h2.2, by rw [h.1.1]; rfl⟩

/-- Each zero-padded position of `isoformatChars` is a decimal digit. -/
theorem isDigit_digitChar_mod (x : ℕ) : (digitChar (x % 10)).isDigit = true := by
  have h : x % 10 < 10 := Nat.mod_lt _ (by norm_num)
  set k := x % 10 with hk
  interval_cases k <;> decide

/-- The output of `datetime.isoformat()` always has the ISO-8601
`YYYY-MM-DDTHH:MM:SS` shape. -/
theorem isoformat_isISO8601 (d : PyDatetime) :
    isISO8601Timestamp d.isoformat = true := by
  simp [PyDatetime.isoformat, isISO8601Timestamp, isoformatChars,
        isDigit_digitChar_mod]

/-- C8: `get_measurements` always sends `sort=datetime`, and a supplied
`date_from`/`date_to` is serialized via `datetime.isoformat()`, whose
output is ISO-8601 timestamp text. -/
theorem C8_get_measurements_params (location_id : Option ℤ)
    (parameter : Option String) (date_from date_to : Option PyDatetime)
    (limit : ℤ) :
    ("sort", PVal.str "datetime") ∈
      get_measurements_params location_id parameter date_from date_to limit ∧
    (∀ d, date_from = some d →
      ("date_from", PVal.str d.isoformat) ∈
        get_measurements_params location_id parameter date_from date_to limit ∧
      isISO8601Timestamp d.isoformat = true) ∧
    (∀ d, date_to = some d →
      ("date_to", PVal.str d.isoformat) ∈
        get_measurements_params location_id parameter date_from date_to limit ∧
      isISO8601Timestamp d.isoformat = true) := by
  refine ⟨?_, fun d hd => ⟨?_, isoformat_isISO8601 d⟩,
          fun d hd => ⟨?_, isoformat_isISO8601 d⟩⟩ <;>
    subst_eqs <;> simp [get_measurements_params]

/-- Witness for C8 at a concrete call with both dates supplied. -/
theorem C8_get_measurements_params_witness :
    ("sort", PVal.str "datetime") ∈
      get_measurements_params (some 1) (some "pm25")
        (some (PyDatetime.mk 2024 1 1 0 0 0))
        (some (PyDatetime.mk 2024 1 2 0 0 0)) 500 ∧
    ("date_from", PVal.str "2024-01-01T00:00:00") ∈
      get_measurements_params (some 1) (some "pm25")
        (some (PyDatetime.mk 2024 1 1 0 0 0))
        (some (PyDatetime.mk 2024 1 2 0 0 0)) 500 ∧
    isISO8601Timestamp "2024-01-02T00:00:00" = true := by
  have h := C8_get_measurements_params (some 1) (some "pm25")
    (some (PyDatetime.mk 2024 1 1 0 0 0))
    (some (PyDatetime.mk 2024 1 2 0 0 0)) 500
  have hf := h.2.1 (PyDatetime.mk 2024 1 1 0 0 0) rfl
  have ht := h.2.2 (PyDatetime.mk 2024 1 2 0 0 0) rfl
  exact ⟨h.1, hf.1, ht.2⟩

/-- On any value below 0 or strictly inside a gap between adjacent
threshold bands, no band of `AQI_THRESHOLDS["pm25"]` matches. -/
theorem aqi_find_none (v : ℚ)
    (h : v < 0 ∨ (12 < v ∧ v < 12.1) ∨ (35.4 < v ∧ v < 35.5) ∨
         (55.4 < v ∧ v < 55.5) ∨ (150.4 < v ∧ v < 150.5) ∨
         (250.4 < v ∧ v < 250.5)) :
    aqiThresholdsPm25.find? (bandMatches v) = none := by
  rw [List.find?_eq_none]
  intro b hb
  unfold aqiThresholdsPm25 at hb
  rcases h with h0 | ⟨ha, hb2⟩ | ⟨ha, hb2⟩ | ⟨ha, hb2⟩ | ⟨ha, hb2⟩ | ⟨ha, hb2⟩ <;>
    fin_cases hb <;>
    simp only [bandMatches, Bool.and_eq_true, Bool.and_true,
               decide_eq_true_eq, not_and, not_le] <;>
    intros <;>
    linarith

/-- Values in the first band select it. -/
theorem aqi_find_good (v : ℚ) (h1 : 0 ≤ v) (h2 : v ≤ 12) :
    aqiThresholdsPm25.find? (bandMatches v) =
      some (AQIBand.mk 0 (some 12) "Good" "#00E400") := by
  unfold aqiThresholdsPm25
  rw [List.find?_cons_of_pos _ (by
    simp only [bandMatches, Bool.and_eq_true, decide_eq_true_eq]
    exact ⟨h1, h2⟩)]

/-- Values in the second band select it. -/
theorem aqi_find_moderate (v : ℚ) (h1 : 12.1 ≤ v) (h2 : v ≤ 35.4) :
    aqiThresholdsPm25.find? (bandMatches v) =
      some (AQIBand.mk 12.1 (some 35.4) "Moderate" "#FFFF00") := by
  unfold aqiThresholdsPm25
  rw [List.find?_cons_of_neg _ (by
        simp only [bandMatches, Bool.and_eq_true, decide_eq_true_eq, not_and, not_le]
        intros; linarith),
      List.find?_cons_of_pos _ (by
        simp only [bandMatches, Bool.and_eq_true, decide_eq_true_eq]
        exact ⟨h1, h2⟩)]

/-- Values in the third band select it. -/
theorem aqi_find_usg (v : ℚ) (h1 : 35.5 ≤ v) (h2 : v ≤ 55.4) :
    aqiThresholdsPm25.find? (bandMatches v) =
      some (AQIBand.mk 35.5 (some 55.4) "Unhealthy for Sensitive Groups" "#FF7E00") := by
  unfold aqiThresholdsPm25
  rw [List.find?_cons_of_neg _ (by
        simp only [bandMatches, Bool.and_eq_true, decide_eq_true_eq, not_and, not_le]
        intros; linarith),
      List.find?_cons_of_neg _ (by
        simp only [bandMatches, Bool.and_eq_true, decide_eq_true_eq, not_and, not_le]
        intros; linarith),
      List.find?_cons_of_pos _ (by
        simp only [bandMatches, Bool.and_eq_true, decide_eq_true_eq]
        exact ⟨h1, h2⟩)]

/-- Values in the fourth band select it. -/
theorem aqi_find_unhealthy (v : ℚ) (h1 : 55.5 ≤ v) (h2 : v ≤ 150.4) :
    aqiThresholdsPm25.find? (bandMatches v) =
      some (AQIBand.mk 55.5 (some 150.4) "Unhealthy" "#FF0000") := by
  unfold aqiThresholdsPm25
  rw [List.find?_cons_of_neg _ (by
        simp only [bandMatches, Bool.and_eq_true, decide_eq_true_eq, not_and, not_le]
        intros; linarith),
      List.find?_cons_of_neg _ (by
        simp only [bandMatches, Bool.and_eq_true, decide_eq_true_eq, not_and, not_le]
        intros; linarith),
      List.find?_cons_of_neg _ (by
        simp only [bandMatches, Bool.and_eq_true, decide_eq_true_eq, not_and, not_le]
        intros; linarith),
      List.find?_cons_of_pos _ (by
        simp only [bandMatches, Bool.and_eq_true, decide_eq_true_eq]
        exact ⟨h1, h2⟩)]

/-- Values in the fifth band select it. -/
theorem aqi_find_very_unhealthy (v : ℚ) (h1 : 150.5 ≤ v) (h2 : v ≤ 250.4) :
    aqiThresholdsPm25.find? (bandMatches v) =
      some (AQIBand.mk 150.5 (some 250.4) "Very Unhealthy" "#8F3F97") := by
  unfold aqiThresholdsPm25
  rw [List.find?_cons_of_neg _ (by
        simp only [bandMatches, Bool.and_eq_true, decide_eq_true_eq, not_and, not_le]
        intros; linarith),
      List.find?_cons_of_neg _ (by
        simp only [bandMatches, Bool.and_eq_true, decide_eq_true_eq, not_and, not_le]
        intros; linarith),
      List.find?_cons_of_neg _ (by
        simp only [bandMatches, Bool.and_eq_true, decide_eq_true_eq, not_and, not_le]
        intros; linarith),
      List.find?_cons_of_neg _ (by
        simp only [bandMatches, Bool.and_eq_true, decide_eq_true_eq, not_and, not_le]
        intros; linarith),
      List.find?_cons_of_pos _ (by
        simp only [bandMatches, Bool.and_eq_true, decide_eq_true_eq]
        exact ⟨h1, h2⟩)]

/-- Values in the unbounded sixth band select it. -/
theorem aqi_find_hazardous (v : ℚ) (h1 : 250.5 ≤ v) :
    aqiThresholdsPm25.find? (bandMatches v) =
      some (AQIBand.mk 250.5 none "Hazardous" "#7E0023") := by
  unfold aqiThresholdsPm25
  rw [List.find?_cons_of_neg _ (by
        simp only [bandMatches, Bool.and_eq_true, decide_eq_true_eq, not_and, not_le]
        intros; linarith),
      List.find?_cons_of_neg _ (by
        simp only [bandMatches, Bool.and_eq_true, decide_eq_true_eq, not_and, not_le]
        intros; linarith),
      List.find?_cons_of_neg _ (by
        simp only [bandMatches, Bool.and_eq_true, decide_eq_true_eq, not_and, not_le]
        intros; linarith),
      List.find?_cons_of_neg _ (by
        simp only [bandMatches, Bool.and_eq_true, decide_eq_true_eq, not_and, not_le]
        intros; linarith),
      List.find?_cons_of_neg _ (by
        simp only [bandMatches, Bool.and_eq_true, decide_eq_true_eq, not_and, not_le]
        intros; linarith),
      List.find?_cons_of_pos _ (by
        simp only [bandMatches, Bool.and_eq_true, Bool.and_true, decide_eq_true_eq]
        exact h1)]

/-- C10: the threshold bands leave gaps — below 0 and strictly between
adjacent band bounds no band matches, and there the two classifiers
disagree on the fallback: the gauge reports category `Good` with the
green hex color while the map helper returns `blue`; on any value
inside some band, both return that band's category/color (the map
helper via the hex-to-CSS table). -/
theorem C10_aqi_band_classifiers (v : ℚ) :
    ((v < 0 ∨ (12 < v ∧ v < 12.1) ∨ (35.4 < v ∧ v < 35.5) ∨
      (55.4 < v ∧ v < 55.5) ∨ (150.4 < v ∧ v < 150.5) ∨
      (250.4 < v ∧ v < 250.5)) →
      create_aqi_gauge_category v = ("Good", "#00E400") ∧
      get_aqi_color v = "blue") ∧
    (0 ≤ v → v ≤ 12 →
      create_aqi_gauge_category v = ("Good", "#00E400") ∧
      get_aqi_color v = "green") ∧
    (12.1 ≤ v → v ≤ 35.4 →
      create_aqi_gauge_category v = ("Moderate", "#FFFF00") ∧
      get_aqi_color v = "yellow") ∧
    (35.5 ≤ v → v ≤ 55.4 →
      create_aqi_gauge_category v = ("Unhealthy for Sensitive Groups", "#FF7E00") ∧
      get_aqi_color v = "orange") ∧
    (55.5 ≤ v → v ≤ 150.4 →
      create_aqi_gauge_category v = ("Unhealthy", "#FF0000") ∧
      get_aqi_color v = "red") ∧
    (150.5 ≤ v → v ≤ 250.4 →
      create_aqi_gauge_category v = ("Very Unhealthy", "#8F3F97") ∧
      get_aqi_color v = "purple") ∧
    (250.5 ≤ v →
      create_aqi_gauge_category v = ("Hazardous", "#7E0023") ∧
      get_aqi_color v = "darkred") := by
  refine ⟨fun h => ?_, fun h1 h2 => ?_, fun h1 h2 => ?_, fun h1 h2 => ?_,
          fun h1 h2 => ?_, fun h1 h2 => ?_, fun h1 => ?_⟩
  · unfold create_aqi_gauge_category get_aqi_color
    rw [aqi_find_none v h]
    exact ⟨rfl, rfl⟩
  · unfold create_aqi_gauge_category get_aqi_color
    rw [aqi_find_good v h1 h2]
    exact ⟨rfl, rfl⟩
  · unfold create_aqi_gauge_category get_aqi_color
    rw [aqi_find_moderate v h1 h2]
    exact ⟨rfl, rfl⟩
  · unfold create_aqi_gauge_category get_aqi_color
    rw [aqi_find_usg v h1 h2]
    exact ⟨rfl, rfl⟩
  · unfold create_aqi_gauge_category get_aqi_color
    rw [aqi_find_unhealthy v h1 h2]
    exact ⟨rfl, rfl⟩
  · unfold create_aqi_gauge_category get_aqi_color
    rw [aqi_find_very_unhealthy v h1 h2]
    exact ⟨rfl, rfl⟩
  · unfold create_aqi_gauge_category get_aqi_color
    rw [aqi_find_hazardous v h1]
    exact ⟨rfl, rfl⟩

/-- Witness for C10: 12.05 lies in a gap (gauge says Good/green hex, map
helper says blue); 40 lies in the third band (both say that band). -/
theorem C10_aqi_band_classifiers_witness :
    (create_aqi_gauge_category 12.05 = ("Good", "#00E400") ∧
     get_aqi_color 12.05 = "blue") ∧
    (create_aqi_gauge_category 40 = ("Unhealthy for Sensitive Groups", "#FF7E00") ∧
     get_aqi_color 40 = "orange") := by
  refine ⟨(C10_aqi_band_classifiers 12.05).1 (Or.inr (Or.inl (by norm_num))), ?_⟩
  exact (C10_aqi_band_classifiers 40).2.2.2.1 (by norm_num) (by norm_num)
